import Mathlib

/-!
Verification of the Streamax N9M server (imkiasi/Streamax_server).

Shallow embedding of the framing codec, the signal dispatcher, the
per-connection decode loop and the channel demultiplexer, translated from:
  * `video_server.js`  — `parsePacket`, `buildPacket`, `handleMessagePacket`,
     the socket `data` handler;
  * `unnamed/part_000` — `parseN9M` (the variant with the length check
     commented out);
  * `unnamed/part_001` — `parseN9M`, `N9MConnection` (`installHandlers`,
     `startTimers`, `cleanup`, `handleH264`).

Bytes are modelled as `Nat` list elements; `Buffer.readUIntNBE` becomes
arithmetic on `getD`; JS objects whose fields may be `undefined` become
structures of `Option` fields; `JSON.parse` is an opaque parameter
`jp : List Nat → Option Msg` (the codec treats the payload as bytes and
defers interpretation, so every theorem quantifies over it); a JS exception
(`TypeError` on a field access of `undefined`) becomes `Except.error`.
-/

namespace Streamax

/-- A JSON leaf value carried opaquely through the dispatcher
(string or number, as stored in the JS objects). -/
inductive JVal where
  | s : String → JVal
  | n : Int → JVal
deriving DecidableEq, Repr

/-- JS truthiness for the values we model: `""` and `0` are falsy. -/
def JVal.truthy : JVal → Bool
  | .s v => v ≠ ""
  | .n v => v ≠ 0

/-- JS `a || d` on a possibly-undefined value `a`. -/
def jsOr (a : Option JVal) (d : JVal) : JVal :=
  match a with
  | some v => if v.truthy then v else d
  | none => d

/-- JS `a || d` where both sides are strings (`undefined` and `""` are falsy). -/
def jsOrStr (a : Option String) (d : String) : String :=
  match a with
  | some v => if v = "" then d else v
  | none => d

/-- `PARAMETER` object of an inbound signal; absent JSON fields are `none`
(JS `undefined`).  Field names follow the JSON keys read by the server. -/
structure Params where
  PRO : Option JVal := none
  DSNO : Option JVal := none
  CARNUM : Option JVal := none
  CHANNEL : Option JVal := none
  DEVNAME : Option JVal := none
  DEVCLASS : Option JVal := none
  DEVTYPE : Option JVal := none
  NET : Option JVal := none
  STREAMNAME : Option JVal := none
  CSRC : Option JVal := none
  SSRC : Option JVal := none
deriving DecidableEq, Repr

/-- An inbound signal object as read by `handleMessagePacket`
(`msg.MODULE`, `msg.OPERATION`, `msg.SESSION`, `msg.PARAMETER`). -/
structure Msg where
  MODULE : Option String := none
  OPERATION : Option String := none
  SESSION : Option String := none
  PARAMETER : Option Params := none
deriving DecidableEq, Repr

/-- The decoded `payload` field of a frame: for payload types 0/1 the parsed
JSON object, or (on a parse failure) the trimmed UTF-8 string, identified by
its byte sequence; otherwise the raw bytes (`payloadType === 2` and the
default branch both store the raw buffer). -/
inductive PV where
  | json : Msg → PV
  | text : List Nat → PV
  | bin : List Nat → PV
deriving DecidableEq, Repr

/-- ASCII whitespace, for the `.trim()` applied to JSON payloads. -/
def isSpaceByte (b : Nat) : Bool :=
  b = 32 || b = 9 || b = 10 || b = 13 || b = 11 || b = 12

/-- Byte-level model of JS `String.prototype.trim` on the payload. -/
def trimBytes (l : List Nat) : List Nat :=
  ((l.dropWhile isSpaceByte).reverse.dropWhile isSpaceByte).reverse

/-- `buffer.readUInt8(i)`. -/
def readU8 (b : List Nat) (i : Nat) : Nat := b.getD i 0

/-- `buffer.readUInt16BE(i)`. -/
def readU16BE (b : List Nat) (i : Nat) : Nat :=
  b.getD i 0 * 256 + b.getD (i + 1) 0

/-- `buffer.readUInt32BE(i)`. -/
def readU32BE (b : List Nat) (i : Nat) : Nat :=
  b.getD i 0 * 2 ^ 24 + b.getD (i + 1) 0 * 2 ^ 16 + b.getD (i + 2) 0 * 2 ^ 8 + b.getD (i + 3) 0

/-- Big-endian 16-bit encoding (`writeUInt16BE`). -/
def be16 (v : Nat) : List Nat := [v / 256 % 256, v % 256]

/-- Big-endian 32-bit encoding (`writeUInt32BE`). -/
def be32 (v : Nat) : List Nat :=
  [v / 2 ^ 24 % 256, v / 2 ^ 16 % 256, v / 2 ^ 8 % 256, v % 256]

/-- The 12-byte fixed header written by `buildPacket` in `video_server.js`:
first byte, payload type, 16-bit ssrc, 32-bit payload length, 32-bit reserve. -/
def mkHeader (firstByte payloadType ssrc payloadLen reserve : Nat) : List Nat :=
  firstByte :: payloadType :: (be16 ssrc ++ be32 payloadLen ++ be32 reserve)

/-- A decoded frame, as returned by `parsePacket` in `video_server.js`
(the csrc-reading loop in the source is commented out, so `csrcList` is
always `[]`). -/
structure Frame where
  version : Nat
  padding : Nat
  marker : Nat
  csrcCount : Nat
  payloadType : Nat
  ssrc : Nat
  payloadLen : Nat
  reserve : Nat
  csrcList : List Nat
  payload : PV
  totalLength : Nat
deriving DecidableEq, Repr

/-- Payload interpretation done inside `parsePacket`: for payload types 0/1,
`JSON.parse(buf.toString("utf8").trim())` with the string fallback on a parse
error; otherwise the raw bytes. -/
def interp (jp : List Nat → Option Msg) (payloadType : Nat) (b : List Nat) : PV :=
  if payloadType = 0 ∨ payloadType = 1 then
    match jp (trimBytes b) with
    | some m => PV.json m
    | none => PV.text (trimBytes b)
  else PV.bin b

/-- `parsePacket` from `video_server.js`: 12-byte fixed header (byte 0 packs
version/padding/marker/csrc count, byte 1 payload type, bytes 2-3 ssrc,
bytes 4-7 payload length, bytes 8-11 reserve); returns `none` (\"no frame
yet\") when fewer than `12 + payloadLen` bytes are available. -/
def parsePacket (jp : List Nat → Option Msg) (buffer : List Nat) : Option Frame :=
  if buffer.length < 12 then none
  else
    let firstByte := readU8 buffer 0
    let payloadLen := readU32BE buffer 4
    let totalLen := 12 + payloadLen
    if buffer.length < totalLen then none
    else
      some { version := firstByte / 64 % 4
             padding := firstByte / 32 % 2
             marker := firstByte / 16 % 2
             csrcCount := firstByte % 16
             payloadType := readU8 buffer 1
             ssrc := readU16BE buffer 2
             payloadLen := payloadLen
             reserve := readU32BE buffer 8
             csrcList := []
             payload := interp jp (readU8 buffer 1) ((buffer.drop 12).take payloadLen)
             totalLength := totalLen }

theorem parsePacket_totalLength {jp : List Nat → Option Msg} {b : List Nat} {f : Frame}
    (h : parsePacket jp b = some f) :
    f.totalLength = 12 + f.payloadLen ∧ 12 ≤ f.totalLength ∧ f.totalLength ≤ b.length := by
  unfold parsePacket at h
  split at h
  · exact absurd h (by simp)
  · simp only [] at h
    split at h
    · exact absurd h (by simp)
    · cases h
      refine ⟨rfl, ?_, ?_⟩ <;> dsimp only <;> omega

/-- Fuelled form of the frame-extraction loop of the socket `data` handler in
`video_server.js`: repeatedly `parsePacket` and drop `totalLength` bytes,
stopping on an incomplete packet.  The fuel makes the recursion structural;
`decodeStream` instantiates it with the buffer length, which subsumes the
loop's `while (buffer.length > 0)` guard: a successful parse consumes at
least 12 bytes, so the fuel never runs out before the loop's own exit
(`decodeFuel_irrel`, `decodeStream_none` and `decodeStream_cons` recover the
loop's exact defining equations). -/
def decodeFuel (jp : List Nat → Option Msg) : Nat → List Nat → List Frame × List Nat
  | 0, buffer => ([], buffer)
  | fuel + 1, buffer =>
    match parsePacket jp buffer with
    | none => ([], buffer)
    | some f =>
      let r := decodeFuel jp fuel (buffer.drop f.totalLength)
      (f :: r.1, r.2)

/-- The frame-extraction loop of the socket `data` handler in
`video_server.js`, returning the decoded frames in order and the retained
remainder. -/
def decodeStream (jp : List Nat → Option Msg) (buffer : List Nat) : List Frame × List Nat :=
  decodeFuel jp buffer.length buffer

theorem parsePacket_short {jp : List Nat → Option Msg} {b : List Nat}
    (h : b.length < 12) : parsePacket jp b = none := by
  unfold parsePacket
  rw [if_pos h]

theorem decodeFuel_irrel (jp : List Nat → Option Msg) :
    ∀ f₁ f₂ b, b.length ≤ f₁ → b.length ≤ f₂ →
      decodeFuel jp f₁ b = decodeFuel jp f₂ b := by
  intro f₁
  induction f₁ with
  | zero =>
    intro f₂ b h₁ h₂
    have hb : b = [] := List.length_eq_zero.mp (by omega)
    subst hb
    cases f₂ with
    | zero => rfl
    | succ f₂ => simp [decodeFuel, (@parsePacket_short jp [] (by decide))]
  | succ f₁ ih =>
    intro f₂ b h₁ h₂
    cases f₂ with
    | zero =>
      have hb : b = [] := List.length_eq_zero.mp (by omega)
      subst hb
      simp [decodeFuel, (@parsePacket_short jp [] (by decide))]
    | succ f₂ =>
      simp only [decodeFuel]
      cases hp : parsePacket jp b with
      | none => rfl
      | some f =>
        have ht := parsePacket_totalLength hp
        have := ih f₂ (b.drop f.totalLength)
          (by simp only [List.length_drop]; omega)
          (by simp only [List.length_drop]; omega)
        simp [this]

theorem decodeStream_none {jp : List Nat → Option Msg} {b : List Nat}
    (h : parsePacket jp b = none) : decodeStream jp b = ([], b) := by
  unfold decodeStream
  cases hb : b.length with
  | zero => rfl
  | succ n => simp [decodeFuel, h]

theorem decodeStream_cons {jp : List Nat → Option Msg} {b : List Nat} {f : Frame}
    (h : parsePacket jp b = some f) :
    decodeStream jp b =
      (f :: (decodeStream jp (b.drop f.totalLength)).1,
       (decodeStream jp (b.drop f.totalLength)).2) := by
  have ht := parsePacket_totalLength h
  obtain ⟨k, hk⟩ : ∃ k, b.length = k + 1 := ⟨b.length - 1, by omega⟩
  unfold decodeStream
  rw [hk]
  simp only [decodeFuel, h]
  rw [decodeFuel_irrel jp k (b.drop f.totalLength).length (b.drop f.totalLength)
    (by simp only [List.length_drop]; omega) (le_refl _)]

theorem parsePacket_extend {jp : List Nat → Option Msg} {a : List Nat} {f : Frame}
    (ext : List Nat) (h : parsePacket jp a = some f) :
    parsePacket jp (a ++ ext) = some f := by
  unfold parsePacket at h ⊢
  split at h
  · exact absurd h (by simp)
  · rename_i h12
    simp only [] at h
    split at h
    · exact absurd h (by simp)
    · rename_i hlen
      have hg : ∀ i, i < 12 → (a ++ ext).getD i 0 = a.getD i 0 := fun i hi =>
        List.getD_append a ext 0 i (by omega)
      have hr1 : readU8 (a ++ ext) 1 = readU8 a 1 := hg 1 (by omega)
      have hr32 : readU32BE (a ++ ext) 4 = readU32BE a 4 := by
        unfold readU32BE
        rw [hg 4 (by omega), hg 5 (by omega), hg 6 (by omega), hg 7 (by omega)]
      rw [if_neg (by rw [List.length_append]; omega)]
      simp only []
      rw [hr32, if_neg (by rw [List.length_append]; omega)]
      rw [← h]
      have hpl : ((a ++ ext).drop 12).take (readU32BE a 4) =
          (a.drop 12).take (readU32BE a 4) := by
        rw [List.drop_append_of_le_length (by omega)]
        exact List.take_append_of_le_length (by rw [List.length_drop]; omega)
      unfold readU8 readU16BE
      rw [hg 0 (by omega), hg 1 (by omega), hg 2 (by omega), hg 3 (by omega), hpl]
      unfold readU32BE
      rw [hg 8 (by omega), hg 9 (by omega), hg 10 (by omega), hg 11 (by omega)]

theorem decodeStream_append_aux (jp : List Nat → Option Msg) :
    ∀ n a ext, a.length ≤ n →
      decodeStream jp (a ++ ext) =
        ((decodeStream jp a).1 ++ (decodeStream jp ((decodeStream jp a).2 ++ ext)).1,
         (decodeStream jp ((decodeStream jp a).2 ++ ext)).2) := by
  intro n
  induction n with
  | zero =>
    intro a ext hlen
    have ha : a = [] := List.length_eq_zero.mp (by omega)
    subst ha
    rw [decodeStream_none (@parsePacket_short jp [] (by decide))]
    simp
  | succ n ih =>
    intro a ext hlen
    cases hp : parsePacket jp a with
    | none =>
      rw [decodeStream_none hp]
      simp
    | some f =>
      have ht := parsePacket_totalLength hp
      rw [decodeStream_cons hp, decodeStream_cons (parsePacket_extend ext hp),
        List.drop_append_of_le_length (by omega),
        ih (a.drop f.totalLength) ext (by rw [List.length_drop]; omega)]
      simp

theorem decodeStream_append (jp : List Nat → Option Msg) (a ext : List Nat) :
    decodeStream jp (a ++ ext) =
      ((decodeStream jp a).1 ++ (decodeStream jp ((decodeStream jp a).2 ++ ext)).1,
       (decodeStream jp ((decodeStream jp a).2 ++ ext)).2) :=
  decodeStream_append_aux jp a.length a ext (le_refl _)

theorem decodeStream_snd_stuck_aux (jp : List Nat → Option Msg) :
    ∀ n b, b.length ≤ n → parsePacket jp ((decodeStream jp b).2) = none := by
  intro n
  induction n with
  | zero =>
    intro b hlen
    have hb : b = [] := List.length_eq_zero.mp (by omega)
    subst hb
    rw [decodeStream_none (@parsePacket_short jp [] (by decide))]
    exact @parsePacket_short jp [] (by decide)
  | succ n ih =>
    intro b hlen
    cases hp : parsePacket jp b with
    | none => rw [decodeStream_none hp]; exact hp
    | some f =>
      have ht := parsePacket_totalLength hp
      rw [decodeStream_cons hp]
      exact ih (b.drop f.totalLength) (by rw [List.length_drop]; omega)

theorem decodeStream_snd_stuck (jp : List Nat → Option Msg) (b : List Nat) :
    parsePacket jp ((decodeStream jp b).2) = none :=
  decodeStream_snd_stuck_aux jp b.length b (le_refl _)

/-- One incremental read: concatenate the chunk onto the retained remainder
and run the decode loop (the body of the socket `data` handler, abstracted
to its framing effect). -/
def feedStep (jp : List Nat → Option Msg) (st : List Frame × List Nat) (chunk : List Nat) :
    List Frame × List Nat :=
  let r := decodeStream jp (st.2 ++ chunk)
  (st.1 ++ r.1, r.2)

/-- Feeding a list of byte chunks to the decode loop one at a time, starting
from an empty buffer. -/
def feedChunks (jp : List Nat → Option Msg) (chunks : List (List Nat)) :
    List Frame × List Nat :=
  chunks.foldl (feedStep jp) ([], [])

theorem feedChunks_foldl (jp : List Nat → Option Msg) :
    ∀ (chunks : List (List Nat)) (acc : List Frame × List Nat),
      parsePacket jp acc.2 = none →
      chunks.foldl (feedStep jp) acc =
        (acc.1 ++ (decodeStream jp (acc.2 ++ chunks.flatten)).1,
         (decodeStream jp (acc.2 ++ chunks.flatten)).2) := by
  intro chunks
  induction chunks with
  | nil =>
    intro acc hstuck
    simp only [List.foldl_nil, List.flatten_nil, List.append_nil]
    rw [decodeStream_none hstuck]
    simp
  | cons c cs ih =>
    intro acc hstuck
    simp only [List.foldl_cons, List.flatten_cons]
    rw [ih (feedStep jp acc c) (decodeStream_snd_stuck jp (acc.2 ++ c))]
    unfold feedStep
    simp only []
    rw [← List.append_assoc, decodeStream_append jp (acc.2 ++ c) cs.flatten,
      List.append_assoc]

/-- Header record of a frame returned by `parseN9M` in `unnamed/part_000`. -/
structure N9MHeader0 where
  version : Nat
  payloadType : Nat
  ssrc : Nat
  payloadLen : Nat
  headerLen : Nat
deriving DecidableEq, Repr

/-- Frame returned by `parseN9M` in `unnamed/part_000` (the constant
`type: 'N9M'` tag is omitted). -/
structure N9MFrame0 where
  header : N9MHeader0
  payload : List Nat
  rest : List Nat
deriving DecidableEq, Repr

/-- `parseN9M` from `unnamed/part_000`.  In the source the completeness check
`if (buf.length < headerLen + payloadLen) return null;` is commented out and
replaced by `if (buf.length == 12) return null;`; since `buf.slice` clamps to
the buffer end, the returned payload can be shorter than the declared
`payloadLen`. -/
def parseN9M0 (buf : List Nat) : Option N9MFrame0 :=
  if buf.length < 12 then none
  else
    let b0 := readU8 buf 0
    let version := b0 / 64 % 4
    let payloadType := readU8 buf 1
    let ssrc := readU32BE buf 2
    let payloadLen := readU32BE buf 6
    let headerLen := 12
    if buf.length = 12 then none
    else
      some { header := ⟨version, payloadType, ssrc, payloadLen, headerLen⟩
             payload := (buf.drop headerLen).take payloadLen
             rest := buf.drop (headerLen + payloadLen) }

/-- Frame returned by `parseN9M` in `unnamed/part_001` (`{ pt, ssrc, payload,
rest }`). -/
structure P1Frame where
  pt : Nat
  ssrc : Nat
  payload : List Nat
  rest : List Nat
deriving DecidableEq, Repr

/-- `parseN9M` from `unnamed/part_001`: 8-byte base header plus `4 * cc`
csrc bytes; returns `null` unless `headerLen + payloadLen` bytes are
available. -/
def parseN9M1 (buffer : List Nat) : Option P1Frame :=
  if buffer.length < 8 then none
  else
    let vpmcc := readU8 buffer 0
    let cc := vpmcc % 16
    let pt := readU8 buffer 1
    let ssrc := readU16BE buffer 2
    let payloadLen := readU32BE buffer 4
    let headerLen := 8 + cc * 4
    if buffer.length < headerLen + payloadLen then none
    else
      some { pt := pt
             ssrc := ssrc
             payload := (buffer.drop headerLen).take payloadLen
             rest := buffer.drop (headerLen + payloadLen) }

theorem parseN9M1_short {b : List Nat} (h : b.length < 8) : parseN9M1 b = none := by
  unfold parseN9M1
  rw [if_pos h]

theorem parseN9M1_rest {b : List Nat} {f : P1Frame} (h : parseN9M1 b = some f) :
    8 ≤ b.length ∧ f.rest.length + 8 ≤ b.length := by
  unfold parseN9M1 at h
  split at h
  · exact absurd h (by simp)
  · rename_i h8
    simp only [] at h
    split at h
    · exact absurd h (by simp)
    · rename_i hlen
      cases h
      refine ⟨by omega, ?_⟩
      dsimp only
      rw [List.length_drop]
      omega

theorem parseN9M1_extend {a : List Nat} {f : P1Frame} (ext : List Nat)
    (h : parseN9M1 a = some f) :
    parseN9M1 (a ++ ext) = some ⟨f.pt, f.ssrc, f.payload, f.rest ++ ext⟩ := by
  unfold parseN9M1 at h ⊢
  split at h
  · exact absurd h (by simp)
  · rename_i h8
    simp only [] at h
    split at h
    · exact absurd h (by simp)
    · rename_i hlen
      cases h
      dsimp only
      have hg : ∀ i, i < 8 → (a ++ ext).getD i 0 = a.getD i 0 := fun i hi =>
        List.getD_append a ext 0 i (by omega)
      have hr0 : readU8 (a ++ ext) 0 = readU8 a 0 := hg 0 (by omega)
      have hr1 : readU8 (a ++ ext) 1 = readU8 a 1 := hg 1 (by omega)
      have hr16 : readU16BE (a ++ ext) 2 = readU16BE a 2 := by
        unfold readU16BE
        rw [hg 2 (by omega), hg 3 (by omega)]
      have hr32 : readU32BE (a ++ ext) 4 = readU32BE a 4 := by
        unfold readU32BE
        rw [hg 4 (by omega), hg 5 (by omega), hg 6 (by omega), hg 7 (by omega)]
      rw [if_neg (by rw [List.length_append]; omega)]
      rw [hr0, hr32, if_neg (by rw [List.length_append]; omega), hr1, hr16]
      have hdrop : (a ++ ext).drop (8 + readU8 a 0 % 16 * 4) =
          a.drop (8 + readU8 a 0 % 16 * 4) ++ ext :=
        List.drop_append_of_le_length (by omega)
      have hpl : ((a ++ ext).drop (8 + readU8 a 0 % 16 * 4)).take (readU32BE a 4) =
          (a.drop (8 + readU8 a 0 % 16 * 4)).take (readU32BE a 4) := by
        rw [hdrop]
        exact List.take_append_of_le_length (by rw [List.length_drop]; omega)
      rw [hpl, List.drop_append_of_le_length (by omega)]

/-- Fuelled form of the `while (true)` frame loop in
`N9MConnection.installHandlers` (`unnamed/part_001`): repeatedly `parseN9M`,
continue on `frame.rest`, stop when the parser reports no frame.  As with
`decodeFuel`, fuel equal to the buffer length never runs out first, because
each successful parse consumes at least 8 bytes. -/
def n9mFuel : Nat → List Nat → List P1Frame × List Nat
  | 0, buf => ([], buf)
  | fuel + 1, buf =>
    match parseN9M1 buf with
    | none => ([], buf)
    | some f =>
      let r := n9mFuel fuel f.rest
      (f :: r.1, r.2)

/-- The frame loop of `N9MConnection.installHandlers` in `unnamed/part_001`. -/
def decodeN9M (buf : List Nat) : List P1Frame × List Nat :=
  n9mFuel buf.length buf

theorem n9mFuel_irrel :
    ∀ f₁ f₂ b, b.length ≤ f₁ → b.length ≤ f₂ → n9mFuel f₁ b = n9mFuel f₂ b := by
  intro f₁
  induction f₁ with
  | zero =>
    intro f₂ b h₁ h₂
    have hb : b = [] := List.length_eq_zero.mp (by omega)
    subst hb
    cases f₂ with
    | zero => rfl
    | succ f₂ => simp [n9mFuel, (@parseN9M1_short [] (by decide))]
  | succ f₁ ih =>
    intro f₂ b h₁ h₂
    cases f₂ with
    | zero =>
      have hb : b = [] := List.length_eq_zero.mp (by omega)
      subst hb
      simp [n9mFuel, (@parseN9M1_short [] (by decide))]
    | succ f₂ =>
      simp only [n9mFuel]
      cases hp : parseN9M1 b with
      | none => rfl
      | some f =>
        have ht := parseN9M1_rest hp
        have := ih f₂ f.rest (by omega) (by omega)
        simp [this]

theorem decodeN9M_none {b : List Nat} (h : parseN9M1 b = none) :
    decodeN9M b = ([], b) := by
  unfold decodeN9M
  cases hb : b.length with
  | zero => rfl
  | succ n => simp [n9mFuel, h]

theorem decodeN9M_cons {b : List Nat} {f : P1Frame} (h : parseN9M1 b = some f) :
    decodeN9M b = (f :: (decodeN9M f.rest).1, (decodeN9M f.rest).2) := by
  have ht := parseN9M1_rest h
  obtain ⟨k, hk⟩ : ∃ k, b.length = k + 1 := ⟨b.length - 1, by omega⟩
  unfold decodeN9M
  rw [hk]
  simp only [n9mFuel, h]
  rw [n9mFuel_irrel k f.rest.length f.rest (by omega) (le_refl _)]

/-- The part of a decoded part_001 frame consumed by `handlePacket`
(destructuring `{ pt, ssrc, payload }`; `rest` only feeds the loop). -/
def p1view (f : P1Frame) : Nat × Nat × List Nat := (f.pt, f.ssrc, f.payload)

theorem decodeN9M_append_aux :
    ∀ n a ext, a.length ≤ n →
      (decodeN9M (a ++ ext)).1.map p1view =
          (decodeN9M a).1.map p1view ++
            (decodeN9M ((decodeN9M a).2 ++ ext)).1.map p1view
        ∧ (decodeN9M (a ++ ext)).2 = (decodeN9M ((decodeN9M a).2 ++ ext)).2 := by
  intro n
  induction n with
  | zero =>
    intro a ext hlen
    have ha : a = [] := List.length_eq_zero.mp (by omega)
    subst ha
    rw [decodeN9M_none ((@parseN9M1_short [] (by decide)))]
    simp
  | succ n ih =>
    intro a ext hlen
    cases hp : parseN9M1 a with
    | none =>
      rw [decodeN9M_none hp]
      simp
    | some f =>
      have ht := parseN9M1_rest hp
      have hstep := decodeN9M_cons (parseN9M1_extend ext hp)
      rw [decodeN9M_cons hp, hstep]
      obtain ⟨ih1, ih2⟩ := ih f.rest ext (by omega)
      dsimp only at ih1 ih2 ⊢
      constructor
      · simp only [List.map_cons, ih1, p1view, List.cons_append]
      · exact ih2

theorem decodeN9M_snd_stuck_aux :
    ∀ n b, b.length ≤ n → parseN9M1 ((decodeN9M b).2) = none := by
  intro n
  induction n with
  | zero =>
    intro b hlen
    have hb : b = [] := List.length_eq_zero.mp (by omega)
    subst hb
    rw [decodeN9M_none ((@parseN9M1_short [] (by decide)))]
    exact (@parseN9M1_short [] (by decide))
  | succ n ih =>
    intro b hlen
    cases hp : parseN9M1 b with
    | none => rw [decodeN9M_none hp]; exact hp
    | some f =>
      have ht := parseN9M1_rest hp
      rw [decodeN9M_cons hp]
      exact ih f.rest (by omega)

theorem decodeN9M_snd_stuck (b : List Nat) :
    parseN9M1 ((decodeN9M b).2) = none :=
  decodeN9M_snd_stuck_aux b.length b (le_refl _)

/-- One incremental read for the part_001 connection: concatenate the chunk
onto `recvBuf` and run the frame loop. -/
def feedN9MStep (st : List P1Frame × List Nat) (chunk : List Nat) :
    List P1Frame × List Nat :=
  let r := decodeN9M (st.2 ++ chunk)
  (st.1 ++ r.1, r.2)

/-- Feeding a list of byte chunks to the part_001 frame loop one at a time. -/
def feedN9M (chunks : List (List Nat)) : List P1Frame × List Nat :=
  chunks.foldl feedN9MStep ([], [])

theorem feedN9M_foldl :
    ∀ (chunks : List (List Nat)) (acc : List P1Frame × List Nat),
      parseN9M1 acc.2 = none →
      (chunks.foldl feedN9MStep acc).1.map p1view =
          acc.1.map p1view ++ (decodeN9M (acc.2 ++ chunks.flatten)).1.map p1view
        ∧ (chunks.foldl feedN9MStep acc).2 = (decodeN9M (acc.2 ++ chunks.flatten)).2 := by
  intro chunks
  induction chunks with
  | nil =>
    intro acc hstuck
    simp only [List.foldl_nil, List.flatten_nil, List.append_nil]
    rw [decodeN9M_none hstuck]
    simp
  | cons c cs ih =>
    intro acc hstuck
    simp only [List.foldl_cons, List.flatten_cons]
    obtain ⟨ih1, ih2⟩ := ih (feedN9MStep acc c) (decodeN9M_snd_stuck (acc.2 ++ c))
    rw [ih1, ih2]
    unfold feedN9MStep
    dsimp only
    obtain ⟨ha1, ha2⟩ :=
      decodeN9M_append_aux (acc.2 ++ c).length (acc.2 ++ c) cs.flatten (le_refl _)
    rw [← List.append_assoc, ha1, ha2]
    simp

/-- C3: for every way of splitting a byte sequence into chunks, feeding the
chunks incrementally to the decode loop (concatenating each chunk onto the
retained remainder and decoding until \"no frame yet\") yields exactly the
same sequence of decoded frames — and the same retained remainder — as
feeding the whole byte sequence at once.  First conjunct: the
`video_server.js` loop (frames compared whole); remaining conjuncts: the
`unnamed/part_001` loop (frames compared on the `{ pt, ssrc, payload }`
fields consumed by `handlePacket`; the `rest` field is internal to the
loop).  This holds for arbitrary byte sequences, hence in particular for
every valid encoded frame sequence. -/
theorem chunk_invariance (jp : List Nat → Option Msg) (chunks : List (List Nat)) :
    feedChunks jp chunks = decodeStream jp chunks.flatten
    ∧ (feedN9M chunks).1.map p1view = (decodeN9M chunks.flatten).1.map p1view
    ∧ (feedN9M chunks).2 = (decodeN9M chunks.flatten).2 := by
  refine ⟨?_, ?_, ?_⟩
  · unfold feedChunks
    rw [feedChunks_foldl jp chunks ([], []) (@parsePacket_short jp [] (by decide))]
    simp
  · unfold feedN9M
    rw [(feedN9M_foldl chunks ([], []) (@parseN9M1_short [] (by decide))).1]
    simp
  · unfold feedN9M
    rw [(feedN9M_foldl chunks ([], []) (@parseN9M1_short [] (by decide))).2]
    simp

/-- A device registry entry, as assigned by `devices[session] = {...}` in the
CONNECT branch of `handleMessagePacket`. -/
structure Device where
  session : String
  dsno : Option JVal
  carnum : Option JVal
  channel : Option JVal
  devname : Option JVal
  devclass : Option JVal
  devtype : Option JVal
  net : Option JVal
  pro : Option JVal
deriving DecidableEq, Repr

/-- The global `devices` object of `video_server.js`: an insertion-ordered
string-keyed map. -/
abbrev DevMap := List (String × Device)

/-- JS property read `devices[k]`. -/
def lookupKey : DevMap → String → Option Device
  | [], _ => none
  | (k2, v) :: t, k => if k2 = k then some v else lookupKey t k

/-- JS property write `devices[k] = v`: overwrites in place, or appends a new
key at the end (JS objects preserve insertion order for string keys). -/
def setKey : DevMap → String → Device → DevMap
  | [], k, v => [(k, v)]
  | (k2, w) :: t, k, v => if k2 = k then (k, v) :: t else (k2, w) :: setKey t k v

theorem lookupKey_setKey_self (l : DevMap) (k : String) (v : Device) :
    lookupKey (setKey l k v) k = some v := by
  induction l with
  | nil => simp [setKey, lookupKey]
  | cons hd t ih =>
    obtain ⟨k2, w⟩ := hd
    by_cases h : k2 = k <;> simp [setKey, lookupKey, h, ih]

theorem setKey_of_lookup_none {l : DevMap} {k : String} (v : Device)
    (h : lookupKey l k = none) : setKey l k v = l ++ [(k, v)] := by
  induction l with
  | nil => simp [setKey]
  | cons hd t ih =>
    obtain ⟨k2, w⟩ := hd
    by_cases hk : k2 = k
    · rw [lookupKey, if_pos hk] at h
      exact absurd h (by simp)
    · rw [lookupKey, if_neg hk] at h
      simp [setKey, hk, ih h]

/-- `RESPONSE` object of an outbound signal. -/
structure Response where
  SO : Option JVal := none
  ERRORCODE : Option JVal := none
  ERRORCAUSE : Option JVal := none
  PRO : Option JVal := none
  MASKCMD : Option JVal := none
deriving DecidableEq, Repr

/-- `PARAMETER` object of an outbound signal (REQUESTSTREAM and
REQUESTALIVEVIDEO use different subsets of these keys; `STEAMTYPE` is the
typo present in the source). -/
structure OutParams where
  STREAMTYPE : Option JVal := none
  STREAMNAME : Option JVal := none
  CSRC : Option JVal := none
  SSRC : Option JVal := none
  STEAMTYPE : Option JVal := none
  CHANNEL : Option JVal := none
  AUDIOVALID : Option JVal := none
  IPANDPORT : Option JVal := none
  FRAMECOUNT : Option JVal := none
  FRAMEMODE : Option JVal := none
deriving DecidableEq, Repr

/-- An outbound signal object, as handed to `buildPacket` and written to the
socket. -/
structure RespJson where
  MODULE : String
  OPERATION : Option String
  RESPONSE : Option Response := none
  PARAMETER : Option OutParams := none
  SESSION : String
deriving DecidableEq, Repr

/-- A JS runtime exception: reading a property of `undefined`
(`msg.PARAMETER.DSNO` with `msg.PARAMETER` absent).  Thrown inside the
`async` handler it rejects the returned promise, which has no `catch`. -/
inductive JsErr where
  | typeError
deriving DecidableEq, Repr

/-- Observable outcome of one `handleMessagePacket` call: the updated
registry, the immediate `socket.write(responsePacket)` if any, the
`setTimeout(..., 1000)` REQUESTALIVEVIDEO write if any (sent later, with
payload type 0 and ssrc 0), the `logPacket(session, ...)` target (skipped
for an empty session), and the returned session string (which the caller's
`.then` later assigns to `sessionId`). -/
structure HMPRes where
  devices : DevMap
  resp : Option RespJson
  delayed : Option RespJson
  logKey : Option String
  session : String
deriving DecidableEq, Repr

/-- JS property access `msg.MODULE`: `undefined` when the payload is a
string or a buffer rather than a parsed object. -/
def pvMODULE : PV → Option String
  | .json m => m.MODULE
  | _ => none

/-- JS property access `msg.OPERATION`. -/
def pvOPERATION : PV → Option String
  | .json m => m.OPERATION
  | _ => none

/-- JS property access `msg.SESSION`. -/
def pvSESSION : PV → Option String
  | .json m => m.SESSION
  | _ => none

/-- JS property access `msg.PARAMETER`. -/
def pvPARAMETER : PV → Option Params
  | .json m => m.PARAMETER
  | _ => none

/-- The REQUESTALIVEVIDEO request scheduled (after 1000 ms) for every
CONNECT, with `SESSION: msg.SESSION || ''`. -/
def requestAliveVideo (sess : String) : RespJson :=
  { MODULE := "MEDIASTREAMMODEL"
    OPERATION := some "REQUESTALIVEVIDEO"
    RESPONSE := none
    PARAMETER := some
      { CSRC := some (.s ""), SSRC := some (.n 0), STREAMNAME := some (.s "1"),
        STEAMTYPE := some (.n 0), CHANNEL := some (.n 1), AUDIOVALID := some (.n 0),
        IPANDPORT := some (.s "91.238.164.100:5556"), FRAMECOUNT := some (.n 10),
        FRAMEMODE := some (.n 0) }
    SESSION := sess }

/-- The `logPacket` target: `logPacket` returns immediately when its
`sessionId` argument is falsy. -/
def logOf (s : String) : Option String := if s = "" then none else some s

/-- `handleMessagePacket` from `video_server.js`.  `so` stands for the
`generateSO()` random token (external randomness passed in), `sessionId` for
the per-connection variable passed at call time.  The per-branch behaviour:
`CERTIFICATE`/`CONNECT` answers with SO/ERRORCODE 0/PRO and assigns
`devices[session]` (throwing `TypeError` when `msg.PARAMETER` is absent,
since the device-field reads do not use optional chaining), then schedules a
REQUESTALIVEVIDEO; other `CERTIFICATE` operations answer with the
operation-specific `RESPONSE`; `MEDIASTREAMMODEL`/`MEDIATASKSTART` emits a
REQUESTSTREAM (again throwing if `msg.PARAMETER` is absent); anything else
produces no response.  Every non-throwing path logs the packet and returns
`session = msg.SESSION || sessionId || ''`. -/
def handleMessagePacket (so : String) (devices : DevMap) (pv : PV)
    (sessionId : String) : Except JsErr HMPRes :=
  let session := jsOrStr (pvSESSION pv) (jsOrStr (some sessionId) "")
  match pvMODULE pv with
  | some "CERTIFICATE" =>
    if pvOPERATION pv = some "CONNECT" then
      match pvPARAMETER pv with
      | none => .error .typeError
      | some p =>
        .ok { devices := setKey devices session
                       { session := session, dsno := p.DSNO, carnum := p.CARNUM,
                         channel := p.CHANNEL, devname := p.DEVNAME,
                         devclass := p.DEVCLASS, devtype := p.DEVTYPE,
                         net := p.NET, pro := p.PRO },
              resp := some
                { MODULE := "CERTIFICATE", OPERATION := pvOPERATION pv,
                  RESPONSE := some
                    { SO := some (.s so), ERRORCODE := some (.n 0),
                      ERRORCAUSE := some (.s "SUCCESS"),
                      PRO := some (jsOr p.PRO (.s "1.0.5")), MASKCMD := some (.n 1) },
                  SESSION := session },
              delayed := some (requestAliveVideo (jsOrStr (pvSESSION pv) "")),
              logKey := logOf session,
              session := session }
    else
      let r : Response :=
        if pvOPERATION pv = some "KEEPALIVE" then {}
        else if pvOPERATION pv = some "CREATESTREAM" then
          { ERRORCODE := some (.n 0), ERRORCAUSE := some (.s "SUCCESS") }
        else {}
      .ok { devices := devices,
            resp := some
              { MODULE := "CERTIFICATE", OPERATION := pvOPERATION pv,
                RESPONSE := some r, SESSION := session },
            delayed := none,
            logKey := logOf session,
            session := session }
  | some "MEDIASTREAMMODEL" =>
    if pvOPERATION pv = some "MEDIATASKSTART" then
      match pvPARAMETER pv with
      | none => .error .typeError
      | some p =>
        .ok { devices := devices,
              resp := some
                { MODULE := "MEDIASTREAMMODEL", OPERATION := some "REQUESTSTREAM",
                  PARAMETER := some
                    { STREAMTYPE := some (.n (-1)), STREAMNAME := p.STREAMNAME,
                      CSRC := p.CSRC, SSRC := p.SSRC },
                  SESSION := session },
              delayed := none,
              logKey := logOf session,
              session := session }
    else
      .ok { devices := devices, resp := none, delayed := none,
            logKey := logOf session, session := session }
  | _ =>
    .ok { devices := devices, resp := none, delayed := none,
          logKey := logOf session, session := session }

theorem parsePacket_cons (jp : List Nat → Option Msg)
    (b0 b1 b2 b3 b4 b5 b6 b7 b8 b9 b10 b11 : Nat) (body : List Nat) (plen : Nat)
    (h4 : b4 * 2 ^ 24 + b5 * 2 ^ 16 + b6 * 2 ^ 8 + b7 = plen)
    (hbody : plen ≤ body.length) :
    parsePacket jp
        (b0 :: b1 :: b2 :: b3 :: b4 :: b5 :: b6 :: b7 :: b8 :: b9 :: b10 :: b11 :: body) =
      some { version := b0 / 64 % 4, padding := b0 / 32 % 2, marker := b0 / 16 % 2,
             csrcCount := b0 % 16, payloadType := b1, ssrc := b2 * 256 + b3,
             payloadLen := plen, reserve := b8 * 2 ^ 24 + b9 * 2 ^ 16 + b10 * 2 ^ 8 + b11,
             csrcList := [], payload := interp jp b1 (body.take plen),
             totalLength := 12 + plen } := by
  have hlenL :
      (b0 :: b1 :: b2 :: b3 :: b4 :: b5 :: b6 :: b7 :: b8 :: b9 :: b10 :: b11 :: body).length
        = body.length + 12 := by
    simp
  unfold parsePacket
  rw [if_neg (by omega)]
  simp only []
  have e32 : readU32BE
      (b0 :: b1 :: b2 :: b3 :: b4 :: b5 :: b6 :: b7 :: b8 :: b9 :: b10 :: b11 :: body) 4 =
      plen := h4
  rw [e32, if_neg (by omega)]
  rfl

theorem parsePacket_mkHeader (jp : List Nat → Option Msg)
    (fb pt ssrc plen res : Nat) (body : List Nat)
    (hplen : plen < 2 ^ 32) (hbody : plen ≤ body.length) :
    parsePacket jp (mkHeader fb pt ssrc plen res ++ body) =
      some { version := fb / 64 % 4, padding := fb / 32 % 2, marker := fb / 16 % 2,
             csrcCount := fb % 16, payloadType := pt, ssrc := ssrc % 65536,
             payloadLen := plen, reserve := res % 2 ^ 32, csrcList := [],
             payload := interp jp pt (body.take plen), totalLength := 12 + plen } := by
  have hh : mkHeader fb pt ssrc plen res ++ body =
      fb :: pt :: (ssrc / 256 % 256) :: (ssrc % 256) :: (plen / 2 ^ 24 % 256) ::
        (plen / 2 ^ 16 % 256) :: (plen / 2 ^ 8 % 256) :: (plen % 256) ::
        (res / 2 ^ 24 % 256) :: (res / 2 ^ 16 % 256) :: (res / 2 ^ 8 % 256) ::
        (res % 256) :: body := by
    simp [mkHeader, be16, be32]
  rw [hh, parsePacket_cons jp _ _ _ _ _ _ _ _ _ _ _ _ body plen (by omega) hbody]
  simp only [Option.some.injEq, Frame.mk.injEq, and_true, true_and]
  constructor <;> omega

theorem parsePacket_mkHeader_short (jp : List Nat → Option Msg)
    (fb pt ssrc plen res : Nat) (body : List Nat)
    (hplen : plen < 2 ^ 32) (hbody : body.length < plen) :
    parsePacket jp (mkHeader fb pt ssrc plen res ++ body) = none := by
  have hh : mkHeader fb pt ssrc plen res ++ body =
      fb :: pt :: (ssrc / 256 % 256) :: (ssrc % 256) :: (plen / 2 ^ 24 % 256) ::
        (plen / 2 ^ 16 % 256) :: (plen / 2 ^ 8 % 256) :: (plen % 256) ::
        (res / 2 ^ 24 % 256) :: (res / 2 ^ 16 % 256) :: (res / 2 ^ 8 % 256) ::
        (res % 256) :: body := by
    simp [mkHeader, be16, be32]
  rw [hh]
  have hlenL :
      (fb :: pt :: (ssrc / 256 % 256) :: (ssrc % 256) :: (plen / 2 ^ 24 % 256) ::
        (plen / 2 ^ 16 % 256) :: (plen / 2 ^ 8 % 256) :: (plen % 256) ::
        (res / 2 ^ 24 % 256) :: (res / 2 ^ 16 % 256) :: (res / 2 ^ 8 % 256) ::
        (res % 256) :: body).length = body.length + 12 := by
    simp
  unfold parsePacket
  rw [if_neg (by omega)]
  simp only []
  have e32 : readU32BE
      (fb :: pt :: (ssrc / 256 % 256) :: (ssrc % 256) :: (plen / 2 ^ 24 % 256) ::
        (plen / 2 ^ 16 % 256) :: (plen / 2 ^ 8 % 256) :: (plen % 256) ::
        (res / 2 ^ 24 % 256) :: (res / 2 ^ 16 % 256) :: (res / 2 ^ 8 % 256) ::
        (res % 256) :: body) 4 = plen := by
    show plen / 2 ^ 24 % 256 * 2 ^ 24 + plen / 2 ^ 16 % 256 * 2 ^ 16 +
      plen / 2 ^ 8 % 256 * 2 ^ 8 + plen % 256 = plen
    omega
  rw [e32, if_pos (by omega)]

/-- A JSON parser that recognises nothing; used to instantiate the opaque
`JSON.parse` parameter on concrete byte inputs. -/
def jpNone : List Nat → Option Msg := fun _ => none

/-- C1: evaluation of the code at a failing input.  The part_000 `parseN9M`
violates the completeness invariant: on a 13-byte buffer whose header
declares a 100-byte payload it returns a frame whose payload holds a single
byte (fewer bytes than the declared `payloadLen`), instead of reporting
\"no frame yet\" — the completeness check is commented out in the source.
By contrast, `parsePacket` (`video_server.js`) on the analogous 13-byte
buffer declaring a 100-byte payload, and the part_001 `parseN9M` on the
analogous 9-byte buffer, both return `none` as the claim states. -/
theorem c1_incomplete_frame_exposed :
    parseN9M0 [0, 0, 0, 0, 0, 1, 0, 0, 0, 100, 0, 0, 65] =
      some { header := { version := 0, payloadType := 0, ssrc := 1, payloadLen := 100,
                         headerLen := 12 },
             payload := [65], rest := [] }
    ∧ ([65] : List Nat).length < 100
    ∧ parsePacket jpNone (mkHeader 0 0 1 100 0 ++ [65]) = none
    ∧ parseN9M1 [0, 0, 0, 1, 0, 0, 0, 100, 65] = none := by
  refine ⟨by decide, by decide, by decide, by decide⟩

/-- C2 (amended): the codec imposes no maximum on the declared payload
length and has no rejection path.  For any declared length `n` above the
nominal 16 MiB policy bound (and below the 32-bit field range): with only
the 12-byte header available the decoder returns \"no frame yet\" and waits
rather than rejecting, and once `n` payload bytes are available it returns
the frame with the full `n`-byte payload buffered. -/
theorem oversized_length_not_rejected (jp : List Nat → Option Msg)
    (fb pt ssrc c n : Nat) (h1 : 16 * 2 ^ 20 < n) (h2 : n < 2 ^ 32) :
    parsePacket jp (mkHeader fb pt ssrc n 0) = none
    ∧ parsePacket jp (mkHeader fb pt ssrc n 0 ++ List.replicate n c) =
        some { version := fb / 64 % 4, padding := fb / 32 % 2, marker := fb / 16 % 2,
               csrcCount := fb % 16, payloadType := pt, ssrc := ssrc % 65536,
               payloadLen := n, reserve := 0, csrcList := [],
               payload := interp jp pt (List.replicate n c),
               totalLength := 12 + n } := by
  constructor
  · have h := parsePacket_mkHeader_short jp fb pt ssrc n 0 [] h2
      (by simp only [List.length_nil]; omega)
    simpa using h
  · rw [parsePacket_mkHeader jp fb pt ssrc n 0 (List.replicate n c) h2
      (by simp only [List.length_replicate]; omega)]
    simp [List.take_replicate]

/-- Witness for `oversized_length_not_rejected` at the concrete declared
length `2 ^ 24 + 1` (one byte above 16 MiB). -/
theorem oversized_length_not_rejected_witness :
    16 * 2 ^ 20 < 2 ^ 24 + 1 ∧ 2 ^ 24 + 1 < 2 ^ 32 ∧
      parsePacket jpNone (mkHeader 0 2 1 (2 ^ 24 + 1) 0) = none :=
  ⟨by decide, by decide,
    (oversized_length_not_rejected jpNone 0 2 1 7 (2 ^ 24 + 1) (by decide) (by decide)).1⟩

/-- C2 counterexample: at the concrete declared length `2 ^ 24 + 1` (above
the claimed 16 MiB maximum) the decoder does not reject the frame as an
error: with only the header available it reports \"no frame yet\" (waiting
for more data, not a FramingError — the decoder has no error outcome at
all), and given the full payload it returns the frame with all
`2 ^ 24 + 1` claimed bytes buffered as its payload. -/
theorem oversized_length_counterexample :
    16 * 2 ^ 20 < 2 ^ 24 + 1
    ∧ parsePacket jpNone (mkHeader 0 2 1 (2 ^ 24 + 1) 0) = none
    ∧ parsePacket jpNone (mkHeader 0 2 1 (2 ^ 24 + 1) 0 ++ List.replicate (2 ^ 24 + 1) 7) =
        some { version := 0, padding := 0, marker := 0, csrcCount := 0, payloadType := 2,
               ssrc := 1, payloadLen := 2 ^ 24 + 1, reserve := 0, csrcList := [],
               payload := PV.bin (List.replicate (2 ^ 24 + 1) 7),
               totalLength := 12 + (2 ^ 24 + 1) } := by
  refine ⟨by decide, ?_, ?_⟩
  · have h := parsePacket_mkHeader_short jpNone 0 2 1 (2 ^ 24 + 1) 0 [] (by decide)
      (by decide)
    simpa using h
  · rw [parsePacket_mkHeader jpNone 0 2 1 (2 ^ 24 + 1) 0 (List.replicate (2 ^ 24 + 1) 7)
      (by decide) (by rw [List.length_replicate])]
    rw [List.take_replicate]
    exact rfl

/-- A CONNECT signal with the given session key and parameters. -/
def connectMsg (skey : String) (p : Params) : Msg :=
  { MODULE := some "CERTIFICATE", OPERATION := some "CONNECT",
    SESSION := some skey, PARAMETER := some p }

/-- The registry entry the CONNECT branch stores for session `skey` with
parameters `p`. -/
def devOf (skey : String) (p : Params) : Device :=
  { session := skey, dsno := p.DSNO, carnum := p.CARNUM, channel := p.CHANNEL,
    devname := p.DEVNAME, devclass := p.DEVCLASS, devtype := p.DEVTYPE,
    net := p.NET, pro := p.PRO }

/-- The CONNECT response: fresh token `so`, `ERRORCODE: 0`, negotiated
protocol version `PARAMETER?.PRO || "1.0.5"`. -/
def connectResp (so : String) (skey : String) (p : Params) : RespJson :=
  { MODULE := "CERTIFICATE", OPERATION := some "CONNECT",
    RESPONSE := some
      { SO := some (.s so), ERRORCODE := some (.n 0),
        ERRORCAUSE := some (.s "SUCCESS"), PRO := some (jsOr p.PRO (.s "1.0.5")),
        MASKCMD := some (.n 1) },
    SESSION := skey }

theorem jsOrStr_some_empty (s : String) : jsOrStr (some s) "" = s := by
  by_cases h : s = "" <;> simp [jsOrStr, h]

/-- C4: a CONNECT with a non-empty session key and a `PARAMETER` object, on
a fresh session, creates the registry entry for that key (appended, since
the key was absent), and the emitted response carries the supplied token,
`ERRORCODE: 0` and the negotiated protocol version; a second CONNECT for the
same key does not error and overwrites the stored device identity fields
with the latest values. -/
theorem connect_flow (so1 so2 sid skey : String) (devs : DevMap) (p1 p2 : Params)
    (hk : skey ≠ "") (hfresh : lookupKey devs skey = none) :
    handleMessagePacket so1 devs (PV.json (connectMsg skey p1)) sid =
      .ok { devices := devs ++ [(skey, devOf skey p1)],
            resp := some (connectResp so1 skey p1),
            delayed := some (requestAliveVideo skey),
            logKey := some skey,
            session := skey }
    ∧ handleMessagePacket so2 (devs ++ [(skey, devOf skey p1)])
        (PV.json (connectMsg skey p2)) skey =
      .ok { devices := setKey (devs ++ [(skey, devOf skey p1)]) skey (devOf skey p2),
            resp := some (connectResp so2 skey p2),
            delayed := some (requestAliveVideo skey),
            logKey := some skey,
            session := skey }
    ∧ lookupKey (setKey (devs ++ [(skey, devOf skey p1)]) skey (devOf skey p2)) skey =
        some (devOf skey p2) := by
  refine ⟨?_, ?_, lookupKey_setKey_self _ _ _⟩
  · simp [handleMessagePacket, connectMsg, pvMODULE, pvOPERATION, pvSESSION,
      pvPARAMETER, jsOrStr, hk, logOf, devOf, connectResp,
      setKey_of_lookup_none _ hfresh]
  · simp [handleMessagePacket, connectMsg, pvMODULE, pvOPERATION, pvSESSION,
      pvPARAMETER, jsOrStr, hk, logOf, devOf, connectResp]

/-- Witness for `connect_flow` at concrete inputs. -/
theorem connect_flow_witness :
    ("S1" : String) ≠ "" ∧ lookupKey ([] : DevMap) "S1" = none ∧
    handleMessagePacket "A1B2" [] (PV.json (connectMsg "S1" { DSNO := some (.s "dev1") })) "" =
      .ok { devices := [("S1", devOf "S1" { DSNO := some (.s "dev1") })],
            resp := some (connectResp "A1B2" "S1" { DSNO := some (.s "dev1") }),
            delayed := some (requestAliveVideo "S1"),
            logKey := some "S1",
            session := "S1" } ∧
    lookupKey
        (setKey ([] ++ [("S1", devOf "S1" { DSNO := some (.s "dev1") })]) "S1"
          (devOf "S1" { DSNO := some (.s "dev2") })) "S1" =
      some (devOf "S1" { DSNO := some (.s "dev2") }) := by
  have h := connect_flow "A1B2" "C3D4" "" "S1" [] { DSNO := some (.s "dev1") }
    { DSNO := some (.s "dev2") } (by decide) rfl
  exact ⟨by decide, rfl, by simpa using h.1, h.2.2⟩

/-- C5 counterexample: a CONNECT whose `PARAMETER` object is present but
carries none of the required device fields is not rejected with any error:
the dispatcher creates the session entry (with every identity field
undefined) and answers with a success response. -/
theorem connect_missing_fields_counterexample :
    handleMessagePacket "T1T1" []
        (PV.json { MODULE := some "CERTIFICATE", OPERATION := some "CONNECT",
                   SESSION := some "S7", PARAMETER := some {} }) "" =
      .ok { devices := [("S7",
              { session := "S7", dsno := none, carnum := none, channel := none,
                devname := none, devclass := none, devtype := none,
                net := none, pro := none })],
            resp := some
              { MODULE := "CERTIFICATE", OPERATION := some "CONNECT",
                RESPONSE := some
                  { SO := some (.s "T1T1"), ERRORCODE := some (.n 0),
                    ERRORCAUSE := some (.s "SUCCESS"), PRO := some (.s "1.0.5"),
                    MASKCMD := some (.n 1) },
                SESSION := "S7" },
            delayed := some (requestAliveVideo "S7"),
            logKey := some "S7",
            session := "S7" } := rfl

/-- C5 (amended): validation of device parameters does not exist.  A CONNECT
whose `PARAMETER` object is entirely absent aborts with a `TypeError` (the
un-chained `msg.PARAMETER.DSNO` read), before any session entry is created,
any response is written or anything is logged - an unhandled promise
rejection rather than a logged ProtocolError; a CONNECT whose `PARAMETER`
is present but missing any or all device fields is accepted: the session
entry is created (or overwritten) with those fields undefined, and a
success response is emitted. -/
theorem connect_missing_params (so sid : String) (devs : DevMap)
    (sess : Option String) (p : Params) :
    handleMessagePacket so devs
        (PV.json { MODULE := some "CERTIFICATE", OPERATION := some "CONNECT",
                   SESSION := sess, PARAMETER := none }) sid
      = .error .typeError
    ∧ handleMessagePacket so devs
        (PV.json { MODULE := some "CERTIFICATE", OPERATION := some "CONNECT",
                   SESSION := sess, PARAMETER := some p }) sid
      = .ok { devices := setKey devs (jsOrStr sess (jsOrStr (some sid) ""))
                (devOf (jsOrStr sess (jsOrStr (some sid) "")) p),
              resp := some (connectResp so (jsOrStr sess (jsOrStr (some sid) "")) p),
              delayed := some (requestAliveVideo (jsOrStr sess "")),
              logKey := logOf (jsOrStr sess (jsOrStr (some sid) "")),
              session := jsOrStr sess (jsOrStr (some sid) "") }
    ∧ lookupKey (setKey devs (jsOrStr sess (jsOrStr (some sid) ""))
          (devOf (jsOrStr sess (jsOrStr (some sid) "")) p))
        (jsOrStr sess (jsOrStr (some sid) "")) =
      some (devOf (jsOrStr sess (jsOrStr (some sid) "")) p) :=
  ⟨rfl, rfl, lookupKey_setKey_self _ _ _⟩

theorem jsOrStr_none (d : String) : jsOrStr none d = d := rfl

/-- C10: a complete frame of payload type 0 or 1 whose payload bytes do not
parse as JSON is decoded without failure, its payload being the trimmed
UTF-8 string of the bytes; the decode loop consumes the frame's bytes
entirely (empty remainder); and the dispatcher, handed such a string
payload, emits no response, schedules no request, leaves the device
registry unchanged and returns the session unchanged — nothing in
`video_server.js` closes the connection on this path. -/
theorem invalid_json_tolerated (jp : List Nat → Option Msg) (so sid : String)
    (devs : DevMap) (fb ssrc pt : Nat) (pb : List Nat)
    (hpt : pt = 0 ∨ pt = 1) (hjp : jp (trimBytes pb) = none)
    (hlen : pb.length < 2 ^ 32) :
    parsePacket jp (mkHeader fb pt ssrc pb.length 0 ++ pb) =
      some { version := fb / 64 % 4, padding := fb / 32 % 2, marker := fb / 16 % 2,
             csrcCount := fb % 16, payloadType := pt, ssrc := ssrc % 65536,
             payloadLen := pb.length, reserve := 0, csrcList := [],
             payload := PV.text (trimBytes pb), totalLength := 12 + pb.length }
    ∧ decodeStream jp (mkHeader fb pt ssrc pb.length 0 ++ pb) =
        ([{ version := fb / 64 % 4, padding := fb / 32 % 2, marker := fb / 16 % 2,
            csrcCount := fb % 16, payloadType := pt, ssrc := ssrc % 65536,
            payloadLen := pb.length, reserve := 0, csrcList := [],
            payload := PV.text (trimBytes pb), totalLength := 12 + pb.length }], [])
    ∧ handleMessagePacket so devs (PV.text (trimBytes pb)) sid =
        .ok { devices := devs, resp := none, delayed := none,
              logKey := logOf sid, session := sid } := by
  have hparse := parsePacket_mkHeader jp fb pt ssrc pb.length 0 pb hlen (le_refl _)
  rw [List.take_length] at hparse
  have hinterp : interp jp pt pb = PV.text (trimBytes pb) := by
    unfold interp
    rw [if_pos hpt, hjp]
  rw [hinterp, Nat.zero_mod] at hparse
  have hdlen : (mkHeader fb pt ssrc pb.length 0 ++ pb).length = 12 + pb.length := by
    simp [mkHeader, be16, be32]
    omega
  refine ⟨hparse, ?_, ?_⟩
  · rw [decodeStream_cons hparse]
    dsimp only
    have hdrop : (mkHeader fb pt ssrc pb.length 0 ++ pb).drop (12 + pb.length) = [] := by
      rw [← hdlen, List.drop_length]
    rw [hdrop, decodeStream_none (@parsePacket_short jp [] (by decide))]
  · simp only [handleMessagePacket, pvMODULE, pvSESSION, jsOrStr_none, jsOrStr_some_empty]

/-- Witness for `invalid_json_tolerated` on the concrete one-byte payload
`[67]` with the JSON parser that recognises nothing. -/
theorem invalid_json_tolerated_witness :
    ((1 : Nat) = 0 ∨ (1 : Nat) = 1) ∧ jpNone (trimBytes [67]) = none
    ∧ ([67] : List Nat).length < 2 ^ 32
    ∧ parsePacket jpNone (mkHeader 0 1 3 1 0 ++ [67]) =
        some { version := 0, padding := 0, marker := 0, csrcCount := 0, payloadType := 1,
               ssrc := 3, payloadLen := 1, reserve := 0, csrcList := [],
               payload := PV.text (trimBytes [67]), totalLength := 13 }
    ∧ handleMessagePacket "SO1" [] (PV.text (trimBytes [67])) "Z9" =
        .ok { devices := [], resp := none, delayed := none,
              logKey := logOf "Z9", session := "Z9" } := by
  have h := invalid_json_tolerated jpNone "SO1" "Z9" [] 0 3 1 [67] (by decide) rfl (by decide)
  exact ⟨by decide, rfl, by decide, h.1, h.2.2⟩

/-- A per-channel sink of `unnamed/part_001`: the contents this run appended
to the channel's `.h264` write stream, plus the number of `end()` calls the
stream has received. -/
structure Sink where
  data : List (List Nat)
  closeCount : Nat
deriving DecidableEq, Repr

/-- Per-connection state of `N9MConnection` (`unnamed/part_001`), restricted
to the fields the claims observe.  `files` is the live `ssrc → write
stream` map; `ended` accumulates the write streams that `cleanup` has ended
(so close counts remain observable after deletion from `files`);
`broadcasts` records the `wsBroadcast` calls in order; `sent` counts
successful keepalive pushes; a timer field is `true` while its
`setInterval` handle is live. -/
structure Conn where
  dsno : Option String
  streamname : Option String
  wsRoomKey : Option String
  lastActivity : Nat
  keepAliveTimer : Bool
  idleTimer : Bool
  files : List (Nat × Sink)
  ended : List (Nat × Sink)
  broadcasts : List (String × List Nat)
  sent : Nat
  socketDestroyed : Bool
deriving DecidableEq, Repr

/-- A fresh connection: the constructor followed by `startTimers`. -/
def newConn : Conn :=
  { dsno := none, streamname := none, wsRoomKey := none, lastActivity := 0,
    keepAliveTimer := true, idleTimer := true, files := [], ended := [],
    broadcasts := [], sent := 0, socketDestroyed := false }

/-- `this.files.has(ssrc)` / `this.files.get(ssrc)`. -/
def lookupSink : List (Nat × Sink) → Nat → Option Sink
  | [], _ => none
  | (k, s) :: t, ssrc => if k = ssrc then some s else lookupSink t ssrc

/-- `this.files.get(ssrc).write(frame)`: append to the channel's stream
contents (a missing key is never hit by the caller, which creates the
stream first). -/
def appendSink : List (Nat × Sink) → Nat → List Nat → List (Nat × Sink)
  | [], _, _ => []
  | (k, s) :: t, ssrc, frame =>
    if k = ssrc then (k, { data := s.data ++ [frame], closeCount := s.closeCount }) :: t
    else (k, s) :: appendSink t ssrc frame

/-- The single `wsBroadcast` call of `handleH264`, guarded by
`if (this.wsRoomKey)`. -/
def bcast (w : Option String) (frame : List Nat) : List (String × List Nat) :=
  match w with
  | some k => [(k, frame)]
  | none => []

/-- `N9MConnection.handleH264`: on the first media frame for an `ssrc`,
lazily create the channel's write stream (appending the new map entry) and,
if `wsRoomKey` is still unset, derive it from `dsno || 'unknown'` and the
channel; then write the frame to the channel's stream and broadcast it to
the room. -/
def handleH264 (st : Conn) (ssrc : Nat) (frame : List Nat) : Conn :=
  let st1 :=
    if (lookupSink st.files ssrc).isNone then
      { st with files := st.files ++ [(ssrc, { data := [], closeCount := 0 })],
                wsRoomKey := match st.wsRoomKey with
                  | some k => some k
                  | none =>
                    some ("n9m:" ++ jsOrStr st.dsno "unknown" ++ ":ch" ++ toString ssrc) }
    else st
  { st1 with files := appendSink st1.files ssrc frame,
             broadcasts := st1.broadcasts ++ bcast st1.wsRoomKey frame }

/-- `N9MConnection.cleanup`: clear both intervals, `end()` and delete every
write stream in `files`, destroy the socket. -/
def cleanup (st : Conn) : Conn :=
  { st with keepAliveTimer := false, idleTimer := false,
            files := [],
            ended := st.ended ++ st.files.map
              (fun p => (p.1, { data := p.2.data, closeCount := p.2.closeCount + 1 })),
            socketDestroyed := true }

/-- One firing of the idle watchdog interval: cleanup when no bytes have
arrived for longer than `CONFIG.heartbeat.timeoutMs` (120000 ms). -/
def idleSweep (st : Conn) (now : Nat) : Conn :=
  if 120000 < now - st.lastActivity then cleanup st else st

/-- One firing of the keepalive interval: `socket.write(packSignal(msg))`
inside `try { ... } catch { /* noop */ }`.  `writeOk` says whether the write
throws synchronously; on success the push is counted, on failure the
exception is swallowed and nothing else happens. -/
def keepAliveTick (st : Conn) (writeOk : Bool) : Conn :=
  if writeOk then { st with sent := st.sent + 1 } else st

/-- The socket `error` handler installed by `installHandlers`:
`this.cleanup(...)`. -/
def onSocketError (st : Conn) : Conn := cleanup st

theorem cleanup_idem (st : Conn) : cleanup (cleanup st) = cleanup st := by
  simp [cleanup]

/-- C6: starting from a connection with no sinks, two media frames on
channel 5 followed by one on channel 7 create exactly two sinks, in
first-use order, each created lazily on the first frame for its channel;
the channel-5 sink holds exactly the two channel-5 payloads as ordered
appends with no channel-7 bytes interleaved, and the channel-7 sink holds
exactly the channel-7 payload. -/
theorem channel_isolation (st : Conn) (p1 p2 p3 : List Nat) (h : st.files = []) :
    (handleH264 (handleH264 (handleH264 st 5 p1) 5 p2) 7 p3).files =
      [(5, { data := [p1, p2], closeCount := 0 }),
       (7, { data := [p3], closeCount := 0 })] := by
  simp [handleH264, lookupSink, appendSink, h]

/-- Witness for `channel_isolation` on a fresh connection and concrete
payloads. -/
theorem channel_isolation_witness :
    newConn.files = [] ∧
    (handleH264 (handleH264 (handleH264 newConn 5 [10]) 5 [20]) 7 [30]).files =
      [(5, { data := [[10], [20]], closeCount := 0 }),
       (7, { data := [[30]], closeCount := 0 })] :=
  ⟨rfl, channel_isolation newConn [10] [20] [30] rfl⟩

/-- C7: `cleanup` stops both timers, empties the sink map after ending each
open sink exactly once (every sink that enters `ended` either was already
there or now has close count 1), and running `cleanup` again — or the idle
sweep firing at any later time — on the cleaned state is a no-op. -/
theorem cleanup_closes_once (st : Conn) (t : Nat)
    (hopen : ∀ p ∈ st.files, p.2.closeCount = 0) :
    (cleanup st).keepAliveTimer = false
    ∧ (cleanup st).idleTimer = false
    ∧ (cleanup st).files = []
    ∧ (cleanup st).ended = st.ended ++ st.files.map
        (fun p => (p.1, { data := p.2.data, closeCount := p.2.closeCount + 1 }))
    ∧ (∀ p ∈ (cleanup st).ended, p ∈ st.ended ∨ p.2.closeCount = 1)
    ∧ cleanup (cleanup st) = cleanup st
    ∧ idleSweep (cleanup st) t = cleanup st := by
  refine ⟨rfl, rfl, rfl, rfl, ?_, cleanup_idem st, ?_⟩
  · intro p hp
    simp only [cleanup, List.mem_append, List.mem_map] at hp
    rcases hp with hp | ⟨q, hq, rfl⟩
    · exact Or.inl hp
    · exact Or.inr (by simp [hopen q hq])
  · unfold idleSweep
    split
    · exact cleanup_idem st
    · rfl

/-- Witness for `cleanup_closes_once` on a connection owning one open sink. -/
theorem cleanup_closes_once_witness :
    (∀ p ∈ ({ newConn with files := [(5, { data := [[1]], closeCount := 0 })] } : Conn).files,
        p.2.closeCount = 0)
    ∧ (cleanup { newConn with files := [(5, { data := [[1]], closeCount := 0 })] }).files = []
    ∧ (cleanup { newConn with files := [(5, { data := [[1]], closeCount := 0 })] }).ended =
        [(5, { data := [[1]], closeCount := 1 })]
    ∧ cleanup (cleanup { newConn with files := [(5, { data := [[1]], closeCount := 0 })] }) =
        cleanup { newConn with files := [(5, { data := [[1]], closeCount := 0 })] } := by
  have h := cleanup_closes_once
    { newConn with files := [(5, { data := [[1]], closeCount := 0 })] } 0
    (by decide)
  exact ⟨by decide, h.2.2.1, by simpa using h.2.2.2.1, h.2.2.2.2.2.1⟩

/-- C8 counterexample: on a connection with a live keepalive timer and an
open sink, a synchronous keepalive write failure leaves the state entirely
unchanged — the empty `catch` swallows it and no cleanup happens — whereas
the cleanup path would stop the timer and close the sink. -/
theorem keepalive_failure_swallowed :
    keepAliveTick { newConn with files := [(5, { data := [[1, 2]], closeCount := 0 })] }
        false =
      { newConn with files := [(5, { data := [[1, 2]], closeCount := 0 })] }
    ∧ ({ newConn with
          files := [(5, { data := [[1, 2]], closeCount := 0 })] } : Conn).keepAliveTimer = true
    ∧ ({ newConn with
          files := [(5, { data := [[1, 2]], closeCount := 0 })] } : Conn).files ≠ []
    ∧ (cleanup { newConn with
          files := [(5, { data := [[1, 2]], closeCount := 0 })] }).keepAliveTimer = false
    ∧ (cleanup { newConn with
          files := [(5, { data := [[1, 2]], closeCount := 0 })] }).files = [] :=
  ⟨rfl, rfl, by decide, rfl, rfl⟩

/-- C8 (amended): a transport failure reaches the cleanup path only through
the socket `error` event, whose handler runs the full cleanup (both timers
stopped, sink map emptied, socket destroyed); a synchronous exception from
the keepalive push is swallowed by the empty `catch` block and triggers no
cleanup at all — the connection state is unchanged. -/
theorem write_failure_paths (st : Conn) :
    keepAliveTick st false = st
    ∧ onSocketError st = cleanup st
    ∧ (onSocketError st).keepAliveTimer = false
    ∧ (onSocketError st).idleTimer = false
    ∧ (onSocketError st).files = []
    ∧ (onSocketError st).socketDestroyed = true :=
  ⟨rfl, rfl, rfl, rfl, rfl, rfl⟩

/-- Loop-local state of one socket `data` event in `video_server.js`.
`idx` indexes the external randomness supply standing for `generateSO` (one
fresh token per `handleMessagePacket` call; only CONNECT consumes it);
`pend` queues the `.then(result => sessionId = result)` assignments, which
are promise callbacks and run only after the synchronous loop;
`rejections` counts handler calls whose promise rejected (no `.catch` is
attached anywhere). -/
structure LoopSt where
  idx : Nat
  devices : DevMap
  writes : List RespJson
  delayed : List RespJson
  logs : List String
  pend : List String
  rejections : Nat
deriving DecidableEq, Repr

/-- Dispatch of one decoded frame inside the `data` loop, with `sidEntry`
the value the `sessionId` variable holds throughout the loop (no `.then`
callback has run yet).  Payload types 0/1 go to `handleMessagePacket`
(an `async` function whose body runs synchronously — it contains no
`await`); type 2 goes to `handleStreamPacket`, which only logs; any other
type only prints to the console. -/
def stepFrame (soFun : Nat → String) (sidEntry : String) (ls : LoopSt) (f : Frame) :
    LoopSt :=
  if f.payloadType = 0 ∨ f.payloadType = 1 then
    match handleMessagePacket (soFun ls.idx) ls.devices f.payload sidEntry with
    | .ok r =>
      { ls with idx := ls.idx + 1, devices := r.devices,
                writes := ls.writes ++ r.resp.toList,
                delayed := ls.delayed ++ r.delayed.toList,
                logs := ls.logs ++ r.logKey.toList,
                pend := ls.pend ++ [r.session] }
    | .error _ => { ls with idx := ls.idx + 1, rejections := ls.rejections + 1 }
  else if f.payloadType = 2 then
    { ls with logs := ls.logs ++ (logOf sidEntry).toList }
  else ls

/-- Fuelled form of the `while (buffer.length > 0)` parse-and-dispatch loop
of the socket `data` handler; as with `decodeFuel`, fuel equal to the
buffer length never runs out before the loop's own exit. -/
def procFuel (jp : List Nat → Option Msg) (soFun : Nat → String) (sidEntry : String) :
    Nat → LoopSt → List Nat → LoopSt × List Nat
  | 0, ls, buffer => (ls, buffer)
  | fuel + 1, ls, buffer =>
    match parsePacket jp buffer with
    | none => (ls, buffer)
    | some f =>
      procFuel jp soFun sidEntry fuel (stepFrame soFun sidEntry ls f)
        (buffer.drop f.totalLength)

/-- The parse-and-dispatch loop of one socket `data` event. -/
def procLoop (jp : List Nat → Option Msg) (soFun : Nat → String) (sidEntry : String)
    (ls : LoopSt) (buffer : List Nat) : LoopSt × List Nat :=
  procFuel jp soFun sidEntry buffer.length ls buffer

theorem procFuel_irrel (jp : List Nat → Option Msg) (soFun : Nat → String)
    (sidEntry : String) :
    ∀ f₁ f₂ ls b, b.length ≤ f₁ → b.length ≤ f₂ →
      procFuel jp soFun sidEntry f₁ ls b = procFuel jp soFun sidEntry f₂ ls b := by
  intro f₁
  induction f₁ with
  | zero =>
    intro f₂ ls b h₁ h₂
    have hb : b = [] := List.length_eq_zero.mp (by omega)
    subst hb
    cases f₂ with
    | zero => rfl
    | succ f₂ => simp [procFuel, (@parsePacket_short jp [] (by decide))]
  | succ f₁ ih =>
    intro f₂ ls b h₁ h₂
    cases f₂ with
    | zero =>
      have hb : b = [] := List.length_eq_zero.mp (by omega)
      subst hb
      simp [procFuel, (@parsePacket_short jp [] (by decide))]
    | succ f₂ =>
      simp only [procFuel]
      cases hp : parsePacket jp b with
      | none => rfl
      | some f =>
        have ht := parsePacket_totalLength hp
        exact ih f₂ (stepFrame soFun sidEntry ls f) (b.drop f.totalLength)
          (by simp only [List.length_drop]; omega)
          (by simp only [List.length_drop]; omega)

theorem procLoop_none {jp : List Nat → Option Msg} {soFun : Nat → String}
    {sidEntry : String} {ls : LoopSt} {b : List Nat}
    (h : parsePacket jp b = none) : procLoop jp soFun sidEntry ls b = (ls, b) := by
  unfold procLoop
  cases hb : b.length with
  | zero => rfl
  | succ n => simp [procFuel, h]

theorem procLoop_cons {jp : List Nat → Option Msg} {soFun : Nat → String}
    {sidEntry : String} {ls : LoopSt} {b : List Nat} {f : Frame}
    (h : parsePacket jp b = some f) :
    procLoop jp soFun sidEntry ls b =
      procLoop jp soFun sidEntry (stepFrame soFun sidEntry ls f)
        (b.drop f.totalLength) := by
  have ht := parsePacket_totalLength h
  obtain ⟨k, hk⟩ : ∃ k, b.length = k + 1 := ⟨b.length - 1, by omega⟩
  unfold procLoop
  rw [hk]
  simp only [procFuel, h]
  exact procFuel_irrel jp soFun sidEntry k (b.drop f.totalLength).length _ _
    (by simp only [List.length_drop]; omega) (le_refl _)

theorem procLoop_foldl_aux (jp : List Nat → Option Msg) (soFun : Nat → String)
    (sid : String) :
    ∀ n b ls, b.length ≤ n →
      procLoop jp soFun sid ls b =
        ((decodeStream jp b).1.foldl (stepFrame soFun sid) ls,
         (decodeStream jp b).2) := by
  intro n
  induction n with
  | zero =>
    intro b ls hlen
    have hb : b = [] := List.length_eq_zero.mp (by omega)
    subst hb
    rw [procLoop_none (@parsePacket_short jp [] (by decide)),
      decodeStream_none (@parsePacket_short jp [] (by decide))]
    rfl
  | succ n ih =>
    intro b ls hlen
    cases hp : parsePacket jp b with
    | none =>
      rw [procLoop_none hp, decodeStream_none hp]
      rfl
    | some f =>
      have ht := parsePacket_totalLength hp
      rw [procLoop_cons hp, decodeStream_cons hp,
        ih (b.drop f.totalLength) (stepFrame soFun sid ls f)
          (by rw [List.length_drop]; omega)]
      rfl

/-- C9 (amended): within one `data` event, frames are processed strictly
sequentially in decode order — the interleaved parse-and-dispatch loop of
the socket `data` handler equals decoding every frame first and then
folding the dispatcher over the frames in order, so the registry
(`devices`) updates made by frame `n` are observed by frame `n+1` — but
every frame of the chunk is handled with the `sessionId` value from the
start of the event: each `sessionId = result` assignment runs in a promise
callback only after the whole loop (the last one winning), so a frame does
not observe the session id set by an earlier frame in the same chunk. -/
theorem frames_in_order_sid_deferred (jp : List Nat → Option Msg)
    (soFun : Nat → String) (sid : String) (ls : LoopSt) (buffer : List Nat) :
    procLoop jp soFun sid ls buffer =
      ((decodeStream jp buffer).1.foldl (stepFrame soFun sid) ls,
       (decodeStream jp buffer).2) :=
  procLoop_foldl_aux jp soFun sid buffer.length buffer ls (le_refl _)

/-- Per-connection state of the `video_server.js` TCP handler: the sticky
`buffer`, the `sessionId` variable, the shared `devices` registry, and the
observables accumulated across events (socket writes in order, scheduled
delayed writes, `logPacket` targets, unhandled promise rejections).
`closed` records whether anything destroyed the socket; no code path in
`video_server.js` ever does. -/
structure VState where
  buffer : List Nat
  sessionId : String
  devices : DevMap
  writes : List RespJson
  delayed : List RespJson
  logs : List String
  rejections : Nat
  closed : Bool
deriving DecidableEq, Repr

/-- One socket `data` event in `video_server.js`: concatenate the chunk
onto the sticky buffer, run the parse-and-dispatch loop with the
`sessionId` value from the start of the event, and afterwards run the
queued `.then` callbacks in order, so `sessionId` ends at the last message
frame's result (or is unchanged if the chunk held no message frame). -/
def dataEventJS (jp : List Nat → Option Msg) (soFun : Nat → String) (st : VState)
    (chunk : List Nat) : VState :=
  let r := procLoop jp soFun st.sessionId
    { idx := 0, devices := st.devices, writes := [], delayed := [], logs := [],
      pend := [], rejections := 0 }
    (st.buffer ++ chunk)
  { buffer := r.2,
    sessionId := r.1.pend.getLastD st.sessionId,
    devices := r.1.devices,
    writes := st.writes ++ r.1.writes,
    delayed := st.delayed ++ r.1.delayed,
    logs := st.logs ++ r.1.logs,
    rejections := st.rejections + r.1.rejections,
    closed := st.closed }

/-- Modelled from the spec: the claim's reading of the data handler, in
which frame `n + 1` observes every state update of frame `n` including the
current session id — the `sessionId` variable is updated immediately after
each message frame instead of in a deferred callback. -/
def stepFrameSeq (soFun : Nat → String) (p : String × LoopSt) (f : Frame) :
    String × LoopSt :=
  let ls := p.2
  if f.payloadType = 0 ∨ f.payloadType = 1 then
    match handleMessagePacket (soFun ls.idx) ls.devices f.payload p.1 with
    | .ok r =>
      (r.session,
       { ls with idx := ls.idx + 1, devices := r.devices,
                 writes := ls.writes ++ r.resp.toList,
                 delayed := ls.delayed ++ r.delayed.toList,
                 logs := ls.logs ++ r.logKey.toList,
                 pend := ls.pend ++ [r.session] })
    | .error _ => (p.1, { ls with idx := ls.idx + 1, rejections := ls.rejections + 1 })
  else if f.payloadType = 2 then
    (p.1, { ls with logs := ls.logs ++ (logOf p.1).toList })
  else p

/-- Modelled from the spec: one `data` event under the claim's sequential
reading (`stepFrameSeq`). -/
def dataEventSeq (jp : List Nat → Option Msg) (soFun : Nat → String) (st : VState)
    (chunk : List Nat) : VState :=
  let d := decodeStream jp (st.buffer ++ chunk)
  let r := d.1.foldl (stepFrameSeq soFun)
    (st.sessionId,
     { idx := 0, devices := st.devices, writes := [], delayed := [], logs := [],
       pend := [], rejections := 0 })
  { buffer := d.2,
    sessionId := r.1,
    devices := r.2.devices,
    writes := st.writes ++ r.2.writes,
    delayed := st.delayed ++ r.2.delayed,
    logs := st.logs ++ r.2.logs,
    rejections := st.rejections + r.2.rejections,
    closed := st.closed }

/-- A toy JSON parser for concrete evaluation: byte `[65]` decodes to a
CONNECT for session `"S"` with an empty parameter object, byte `[66]` to a
KEEPALIVE carrying no `SESSION` field. -/
def jpToy : List Nat → Option Msg := fun b =>
  if b = [65] then some (connectMsg "S" {})
  else if b = [66] then
    some { MODULE := some "CERTIFICATE", OPERATION := some "KEEPALIVE",
           SESSION := none, PARAMETER := none }
  else none

/-- A toy `generateSO` supply. -/
def soToy : Nat → String := fun i => if i = 0 then "TOK0" else "TOK1"

/-- The initial per-connection state of the `video_server.js` handler. -/
def v0 : VState :=
  { buffer := [], sessionId := "", devices := [], writes := [], delayed := [],
    logs := [], rejections := 0, closed := false }

/-- One chunk carrying two complete message frames: a CONNECT that sets the
session to `"S"`, followed by a KEEPALIVE without a `SESSION` field. -/
def c9chunk : List Nat :=
  mkHeader 0 0 3 1 0 ++ [65] ++ (mkHeader 0 0 3 1 0 ++ [66])

/-- C9 counterexample: in one chunk holding a CONNECT (session `"S"`)
followed by a KEEPALIVE without a session field, the real handler processes
the KEEPALIVE with the stale entry value of `sessionId` (`""`): its response
carries `SESSION: ""` and the connection's final `sessionId` is `""`
(the deferred assignments end with the KEEPALIVE's result), whereas under
the claimed semantics — each frame observing the previous frame's updates —
the KEEPALIVE's response carries `SESSION: "S"` and the final session id is
`"S"`.  The two semantics disagree on this input. -/
theorem session_update_deferred_counterexample :
    (dataEventJS jpToy soToy v0 c9chunk).writes.map (fun r => r.SESSION) = ["S", ""]
    ∧ (dataEventJS jpToy soToy v0 c9chunk).sessionId = ""
    ∧ (dataEventSeq jpToy soToy v0 c9chunk).writes.map (fun r => r.SESSION) = ["S", "S"]
    ∧ (dataEventSeq jpToy soToy v0 c9chunk).sessionId = "S"
    ∧ dataEventJS jpToy soToy v0 c9chunk ≠ dataEventSeq jpToy soToy v0 c9chunk := by
  refine ⟨rfl, rfl, rfl, rfl, by decide⟩

end Streamax
